import Mathlib

/-!
Verification development for the libtesla-rs overlay rendering core
(`src/lib.rs`): rectangle geometry with saturating usize arithmetic,
RGBA4444 packed colors with 4-bit channel blending, framebuffer drawing
primitives, renderer opacity state, and the TrackBar input state machine.

Machine integers are modelled as `Nat`: `usize` values carry an explicit
bound `USIZE_MAX` and saturating additions are written out; `u8`/`u16`
narrowing casts appear as explicit `% 256` / `% 65536`.
-/

namespace LibTesla

/-- Largest value of the 64-bit `usize` type of the target. -/
def USIZE_MAX : Nat := 2 ^ 64 - 1

/-- Saturating `usize` addition (`usize::saturating_add`). -/
def sadd (a b : Nat) : Nat := min (a + b) USIZE_MAX

/-- Checked `usize` subtraction: `some (a - b)` when it does not underflow,
`none` when the source expression `a - b` would underflow (a panic in debug
builds, a wrap in release builds). -/
def checked_sub (a b : Nat) : Option Nat := if b ≤ a then some (a - b) else none

/-- Rust `Ord::clamp` on `usize` (precondition `lo ≤ hi` holds at every
call site below). -/
def clampN (v lo hi : Nat) : Nat := max lo (min v hi)

/-- The `Rect` struct: one-point rectangle with `usize` fields. -/
structure Rect where
  left : Nat
  top : Nat
  width : Nat
  height : Nat
deriving DecidableEq, Repr

namespace Rect

/-- Valid `usize` field values (automatic in Rust from the types). -/
def WF (r : Rect) : Prop :=
  r.left ≤ USIZE_MAX ∧ r.top ≤ USIZE_MAX ∧ r.width ≤ USIZE_MAX ∧ r.height ≤ USIZE_MAX

instance (r : Rect) : Decidable r.WF := by unfold WF; infer_instance

/-- `Rect::right`: `self.left.saturating_add(self.width)`. -/
def right (r : Rect) : Nat := sadd r.left r.width

/-- `Rect::bottom`: `self.top.saturating_add(self.height)`. -/
def bottom (r : Rect) : Nat := sadd r.top r.height

/-- `Rect::contains`: `(left..right).contains(x) && (top..bottom).contains(y)`. -/
def contains (r : Rect) (x y : Nat) : Bool :=
  (decide (r.left ≤ x) && decide (x < r.right)) &&
    (decide (r.top ≤ y) && decide (y < r.bottom))

/-- `Rect::is_empty`: `width == 0 || height == 0`. -/
def is_empty (r : Rect) : Bool := decide (r.width = 0) || decide (r.height = 0)

/-- `Rect::intersect`: clamps each edge of `self` into the span of
`other`. -/
def intersect (r other : Rect) : Rect :=
  let left := clampN r.left other.left other.right
  let top := clampN r.top other.top other.bottom
  let width := clampN r.right other.left other.right - left
  let height := clampN r.bottom other.top other.bottom - top
  ⟨left, top, width, height⟩

/-- Two rects overlap when some point lies in both. -/
def Overlaps (a b : Rect) : Prop := ∃ x y, a.contains x y ∧ b.contains x y

end Rect

/-- The helper `PromotingMul::promoting_mul` for `u8` exactly as generated by
the `promoting_mul_impl!(u8, u16)` macro expansion: `widening_mul` splits the
product into `(low, high)` bytes and the result is
`u16::from(high) << (size_of::<u16>() / 8) | u16::from(low)`.
Note `size_of::<u16>() / 8 = 2 / 8 = 0`, so the high byte is shifted by zero
bits and OR-ed onto the low byte. -/
def promoting_mul (a b : Nat) : Nat :=
  let low := a * b % 256
  let high := a * b / 256 % 256
  (high <<< (2 / 8)) ||| low

/-- The `Color` bitfield: a `u16` with 4-bit fields `a` (bits 0-3),
`b` (bits 4-7), `g` (bits 8-11), `r` (bits 12-15), in declaration order from
least significant bits, as generated by `bitfield_struct`. -/
structure Color where
  bits : Nat
deriving DecidableEq, Repr

namespace Color

/-- `Color::new()`: the all-zero bitfield. -/
def new : Color := ⟨0⟩

/-- Getter for the alpha field (bits 0-3). -/
def a (c : Color) : Nat := c.bits % 16

/-- Getter for the blue field (bits 4-7). -/
def b (c : Color) : Nat := c.bits / 16 % 16

/-- Getter for the green field (bits 8-11). -/
def g (c : Color) : Nat := c.bits / 256 % 16

/-- Getter for the red field (bits 12-15). -/
def r (c : Color) : Nat := c.bits / 4096 % 16

/-- Setter for the alpha field: the generated bitfield setter masks the
value to the 4-bit field width (`(value & 0xF) << 0`) and keeps the other
bits; written in arithmetic form. -/
def with_a (c : Color) (v : Nat) : Color := ⟨c.bits / 16 * 16 + v % 16⟩

/-- Setter for the blue field (bits 4-7), masking the value to 4 bits. -/
def with_b (c : Color) (v : Nat) : Color :=
  ⟨c.bits / 256 * 256 + v % 16 * 16 + c.bits % 16⟩

/-- Setter for the green field (bits 8-11), masking the value to 4 bits. -/
def with_g (c : Color) (v : Nat) : Color :=
  ⟨c.bits / 4096 * 4096 + v % 16 * 256 + c.bits % 256⟩

/-- Setter for the red field (bits 12-15), masking the value to 4 bits. -/
def with_r (c : Color) (v : Nat) : Color :=
  ⟨c.bits / 65536 * 65536 + v % 16 * 4096 + c.bits % 4096⟩

/-- `Color::from_values(r, g, b, a)`:
`Self::new().with_r(r).with_g(g).with_b(b).with_a(a)`. -/
def from_values (rv gv bv av : Nat) : Color :=
  (((new.with_r rv).with_g gv).with_b bv).with_a av

/-- The generated `into_bits`: the underlying `u16` value. -/
def into_bits (c : Color) : Nat := c.bits % 65536

/-- `Color::as_rgba4444`: `self.into_bits()`. -/
def as_rgba4444 (c : Color) : Nat := c.into_bits

/-- `Color::as_abgr4444`:
`Self::from_values(self.a(), self.b(), self.g(), self.r()).into_bits()`. -/
def as_abgr4444 (c : Color) : Nat :=
  (from_values c.a c.b c.g c.r).into_bits

/-- The value branch of `Color::blend_channel` (reached when the assertion
`alpha <= 0xF` passes): `((right.promoting_mul(alpha) +
left.promoting_mul(0xFF - alpha)) / 0xFF) as u8`; the final `% 256` is the
`as u8` cast. -/
def blend_channel_val (left right alpha : Nat) : Nat :=
  (promoting_mul right alpha + promoting_mul left (255 - alpha)) / 255 % 256

/-- `Color::blend_channel(left, right, alpha)`: asserts `alpha <= 0xF`
(modelled as `none`, the abort) and otherwise computes
`blend_channel_val`. -/
def blend_channel (left right alpha : Nat) : Option Nat :=
  if alpha ≤ 15 then some (blend_channel_val left right alpha) else none

/-- `Color::blend_with(&mut self, other, blend_alpha)`, in source order.
Every `blend_channel` call receives `self.a()` (a 4-bit getter value, hence
at most 15) as its alpha, so the assertion inside `blend_channel` cannot
fire and the calls are modelled by `blend_channel_val` directly.  Note the
source passes `self.a()` — not `self.r()` — as the first (destination)
operand of the red-channel blend. -/
def blend_with (c other : Color) (blend_alpha : Bool) : Color :=
  let c1 := c.with_r (blend_channel_val c.a other.r c.a)
  let c2 := c1.with_g (blend_channel_val c1.g other.g c1.a)
  let c3 := c2.with_b (blend_channel_val c2.b other.b c2.a)
  c3.with_a (if blend_alpha then c3.a + other.a else c3.a)

/-- `Color::BACKGROUND`: `from_values(0x0, 0x0, 0x0, 0xD)`. -/
def BACKGROUND : Color := from_values 0x0 0x0 0x0 0xD

/-- `Color::HIGHLIGHT`: `from_values(0x0, 0xF, 0xD, 0xF)`. -/
def HIGHLIGHT : Color := from_values 0x0 0xF 0xD 0xF

end Color

/-- Decoder for the RGBA4444 serialization (the inverse channel mapping the
spec describes: red in bits 12-15 down to alpha in bits 0-3). -/
def decode_rgba4444 (bits : Nat) : Nat × Nat × Nat × Nat :=
  (bits / 4096 % 16, bits / 256 % 16, bits / 16 % 16, bits % 16)

/-- Decoder for the ABGR4444 serialization (the inverse channel mapping:
alpha in bits 12-15 down to red in bits 0-3). -/
def decode_abgr4444 (bits : Nat) : Nat × Nat × Nat × Nat :=
  (bits % 16, bits / 16 % 16, bits / 256 % 16, bits / 4096 % 16)

/-- Model of the `f32` values that reach the opacity field: `none` is NaN,
`some q` a finite value (exactly representable for every finite value the
claims exercise).  The infinities are omitted: `f32::clamp` sends them to
the nearest bound, indistinguishable here from large finite values. -/
abbrev F32 : Type := Option ℚ

/-- Rust `f32::clamp(self, 0.0, 1.0)`: returns a bound when `self` lies
beyond it, otherwise `self`; a NaN `self` compares false with both bounds
and is returned unchanged (the documented NaN-propagating behavior of
`f32::clamp` — it panics only when a bound is NaN, and the bounds here are
the literals `0f32` and `1f32`). -/
def f32_clamp01 (v : F32) : F32 :=
  match v with
  | none => none
  | some q => some (max 0 (min q 1))

/-- The `Renderer` state relevant to opacity and scissoring: the `opacity`
scalar (an `f32` in the source, modelled by `F32` so that NaN is
representable) and the `scisoring_config` stack. -/
structure RendererState where
  opacity : F32
  scisoring_config : List Rect
deriving DecidableEq, Repr

namespace RendererState

/-- State stored by the success path of `Renderer::new(x, y, width, height,
opacity)`: the surface/context creation is external hardware interaction;
the struct literal stores the `opacity` argument directly (no clamping) and
`scisoring_config: Vec::new()`. -/
def new (opacity : F32) : RendererState := ⟨opacity, []⟩

/-- `Renderer::set_opacity(opacity)`: stores `opacity.clamp(0f32, 1f32)`. -/
def set_opacity (s : RendererState) (opacity : F32) : RendererState :=
  { s with opacity := f32_clamp01 opacity }

end RendererState

/-- The stored opacity value lies in `[0, 1]` (false of NaN, which is
ordered with respect to nothing). -/
def opacity_in_unit_interval : F32 → Prop
  | none => False
  | some q => 0 ≤ q ∧ q ≤ 1

namespace FrameBuffer

/-- The rectangle `FrameBuffer::draw_rect` actually iterates over after its
scissoring step.  The source runs
`if let Some(&scisoring_area) = self.context_ref.scisoring_config.last() {
rect.intersect(scisoring_area); }` — `Rect::intersect` takes `&self` and
returns a new `Rect`, and that return value is discarded, so `rect` is left
unchanged in both branches. -/
def draw_rect_clipped (scissors : List Rect) (rect : Rect) : Rect :=
  match scissors.getLast? with
  | some scisoring_area =>
      let _discarded := rect.intersect scisoring_area
      rect
  | none => rect

/-- Pixel coordinates visited by the drawing loops of `draw_rect`, in
source order: `for x_pixel in rect.left..rect.right()` outer,
`for y_pixel in rect.top..rect.bottom()` inner. -/
def rect_pixels (r : Rect) : List (Nat × Nat) :=
  (List.range' r.left (r.right - r.left)).flatMap fun x =>
    (List.range' r.top (r.bottom - r.top)).map fun y => (x, y)

/-- The list of `(x, y)` pixel positions `FrameBuffer::draw_rect` writes
through `blend_with`: after the (ineffective) scissoring step, an empty
rect returns early with no writes, otherwise every pixel of the rect is
written. -/
def draw_rect_writes (scissors : List Rect) (rect : Rect) : List (Nat × Nat) :=
  let rect := draw_rect_clipped scissors rect
  if rect.is_empty then [] else rect_pixels rect

/-- One pixel write of `draw_rect`:
`self.buffer[y_pixel * stride + x_pixel].blend_with(color, true)`, as a
functional update of the buffer (indexed by flat position). -/
def write_pixel (stride : Nat) (buffer : Nat → Color) (xy : Nat × Nat)
    (color : Color) : Nat → Color :=
  fun i =>
    if i = xy.2 * stride + xy.1 then (buffer i).blend_with color true else buffer i

/-- The buffer contents after `FrameBuffer::draw_rect(rect, color)` runs
over a buffer with the given row stride (`stride_item_count`). -/
def draw_rect_buffer (scissors : List Rect) (stride : Nat) (buffer : Nat → Color)
    (rect : Rect) (color : Color) : Nat → Color :=
  (draw_rect_writes scissors rect).foldl
    (fun buf xy => write_pixel stride buf xy color) buffer

/-- The four edge-band rectangles `FrameBuffer::draw_box(rect, line_width,
color)` passes to `draw_rect` (top, bottom, left, right, in source order),
with `line_offsets = max(1, line_width / 2)` and every `usize` subtraction
checked: the result is `none` when any of the raw source subtractions
(`rect.left - line_offsets`, `rect.top - line_offsets`,
`rect.bottom() - line_offsets`, `rect.right() - line_offsets`) underflows. -/
def draw_box_rects (rect : Rect) (line_width : Nat) : Option (List Rect) :=
  let line_offsets := max 1 (line_width / 2)
  match checked_sub rect.left line_offsets, checked_sub rect.top line_offsets,
      checked_sub rect.bottom line_offsets, checked_sub rect.right line_offsets with
  | some l, some t, some bo, some ri =>
      some [⟨l, t, rect.width + 2 * line_offsets, 2 * line_offsets⟩,
            ⟨l, bo, rect.width + 2 * line_offsets, 2 * line_offsets⟩,
            ⟨l, t, 2 * line_offsets, rect.height + 2 * line_offsets⟩,
            ⟨ri, t, 2 * line_offsets, rect.height + 2 * line_offsets⟩]
  | _, _, _, _ => none

/-- The edge bands the spec asks for instead: the same four rectangles with
the coordinate subtractions clamped to zero (saturating subtraction, which
is what truncated `Nat` subtraction is). -/
def draw_box_rects_saturating (rect : Rect) (line_width : Nat) : List Rect :=
  let line_offsets := max 1 (line_width / 2)
  [⟨rect.left - line_offsets, rect.top - line_offsets,
      rect.width + 2 * line_offsets, 2 * line_offsets⟩,
   ⟨rect.left - line_offsets, rect.bottom - line_offsets,
      rect.width + 2 * line_offsets, 2 * line_offsets⟩,
   ⟨rect.left - line_offsets, rect.top - line_offsets,
      2 * line_offsets, rect.height + 2 * line_offsets⟩,
   ⟨rect.right - line_offsets, rect.top - line_offsets,
      2 * line_offsets, rect.height + 2 * line_offsets⟩]

end FrameBuffer

namespace Element

/-- The accent-band rectangle the default `Element::draw_highlight` passes
to `draw_rect`: `Rect { left: left - 4, top: top - 4, width: width + 8,
height: 4 }` over the `bounds_rect()` of the element, with the two raw `usize`
subtractions checked (`none` when either underflows). -/
def draw_highlight_rect (bounds : Rect) : Option Rect :=
  match checked_sub bounds.left 4, checked_sub bounds.top 4 with
  | some l, some t => some ⟨l, t, bounds.width + 8, 4⟩
  | _, _ => none

end Element

/-- Result of one `TrackBar::on_controller_input` call: the `value` field
after the call, the returned consumed flag, and the argument passed to
`value_changed_callback` when the source invokes it (the callback is run
only when the `Option` field holds one; `none` when no invocation
happens). -/
structure TrackBarStep where
  value : Nat
  consumed : Bool
  callbackArg : Option Nat
deriving DecidableEq, Repr

namespace TrackBar

/-- `TrackBar::on_controller_input`, parametrized by the platform button
masks `ANY_LEFT` and `ANY_RIGHT` (built in the source from `NpadButton`
constants of the external `nx` crate).  Matches on
`(held_keys & ANY_LEFT != 0, held_keys & ANY_RIGHT != 0)` exactly as the
source: both-or-neither consumes with no change; left-only with
`value < 100` increments and fires the callback; right-only with
`value > 0` decrements and fires the callback; the remaining cases return
`false`. -/
def on_controller_input (anyLeft anyRight held_keys value : Nat) : TrackBarStep :=
  match decide (held_keys &&& anyLeft ≠ 0), decide (held_keys &&& anyRight ≠ 0) with
  | true, true => ⟨value, true, none⟩
  | false, false => ⟨value, true, none⟩
  | true, false =>
      if value < 100 then ⟨value + 1, true, some (value + 1)⟩
      else ⟨value, false, none⟩
  | false, true =>
      if 0 < value then ⟨value - 1, true, some (value - 1)⟩
      else ⟨value, false, none⟩

end TrackBar

/-! Helper lemmas about the `Color` bitfield accessors. -/

theorem Color.a_with_r (c : Color) (v : Nat) : (c.with_r v).a = c.a := by
  simp only [Color.with_r, Color.a]; omega

theorem Color.a_with_g (c : Color) (v : Nat) : (c.with_g v).a = c.a := by
  simp only [Color.with_g, Color.a]; omega

theorem Color.a_with_b (c : Color) (v : Nat) : (c.with_b v).a = c.a := by
  simp only [Color.with_b, Color.a]; omega

theorem Color.a_with_a (c : Color) (v : Nat) : (c.with_a v).a = v % 16 := by
  simp only [Color.with_a, Color.a]; omega

theorem Color.from_values_bits (rv gv bv av : Nat) :
    (Color.from_values rv gv bv av).bits =
      rv % 16 * 4096 + gv % 16 * 256 + bv % 16 * 16 + av % 16 := by
  simp only [Color.from_values, Color.new, Color.with_r, Color.with_g,
    Color.with_b, Color.with_a]
  omega

/-- C7: `Color::blend_channel` does abort for alpha > 15, but for valid
alpha it does not compute the claimed widened formula
`(right*alpha + left*(255-alpha)) / 255`: the `promoting_mul` helper shifts
the high byte of the widening multiplication by `size_of::<u16>() / 8 = 0`
bits instead of 8, so it ORs the two bytes of the product together.  At
`left = 15, right = 0, alpha = 15` the code returns `0` while the claimed
formula gives `(0*15 + 15*240) / 255 = 14`. -/
theorem blend_channel_deviates_from_widened_formula :
    Color.blend_channel 15 0 15 = some 0 ∧
      (0 * 15 + 15 * (255 - 15)) / 255 = 14 ∧
      Color.blend_channel 0 0 16 = none := by
  decide

/-- C9: `Color::blend_channel` is not monotonic in alpha.  At
`left = 14 < right = 15` (both valid 4-bit channel values) and alphas
`0 ≤ 1`, the code returns `1` at alpha `0` and `0` at alpha `1` — the
blended result decreases.  The cause is the byte-OR slip in
`promoting_mul`: `14 * 255 = 0x0DF2` ORs to `0xFF` giving `255/255 = 1`,
while `14 * 254 = 0x0DE4` ORs to `0xED` giving `(15 + 237)/255 = 0`. -/
theorem blend_channel_not_monotone_in_alpha :
    Color.blend_channel 14 15 0 = some 1 ∧ Color.blend_channel 14 15 1 = some 0 := by
  decide

/-- C2: `Color::blend_with` computes the red channel as
`blend_channel(self.a(), other.r(), self.a())`, using the destination
alpha in place of the destination red value as the first operand.  At
`self = from_values(0xF, 0x0, 0x0, 0x0)`, `other = from_values(0, 0, 0, 0)`,
`blend_alpha = false`, the code stores red `0`, while the claimed operand
order `blend_channel(self.r(), other.r(), self.a())` evaluates (through the
own `blend_channel` of the code) to `1`. -/
theorem blend_with_red_channel_uses_alpha_operand :
    ((Color.from_values 15 0 0 0).blend_with (Color.from_values 0 0 0 0) false).r = 0 ∧
      Color.blend_channel (Color.from_values 15 0 0 0).r
        (Color.from_values 0 0 0 0).r (Color.from_values 15 0 0 0).a = some 1 := by
  decide

/-- C10: with `blend_alpha = true`, `blend_with` stores
`self.a() + other.a()` through the 4-bit bitfield setter, which masks the
value to the field width: the stored alpha is `(self.a + other.a) % 16` —
wrapping semantics; in particular `0xF + 0xF` stores `0xE`. -/
theorem blend_with_true_alpha_wraps_mod_16 :
    (∀ c other : Color,
        (c.blend_with other true).a = (c.a + other.a) % 16) ∧
      ((Color.from_values 0 0 0 0xF).blend_with (Color.from_values 0 0 0 0xF) true).a
        = 0xE := by
  refine ⟨fun c other => ?_, by decide⟩
  simp [Color.blend_with, Color.a_with_a, Color.a_with_b, Color.a_with_g,
    Color.a_with_r]

theorem Color.a_lt (c : Color) : c.a < 16 := Nat.mod_lt _ (by norm_num)

theorem Color.b_lt (c : Color) : c.b < 16 := Nat.mod_lt _ (by norm_num)

theorem Color.g_lt (c : Color) : c.g < 16 := Nat.mod_lt _ (by norm_num)

theorem Color.r_lt (c : Color) : c.r < 16 := Nat.mod_lt _ (by norm_num)

theorem Color.as_abgr4444_eq (c : Color) :
    c.as_abgr4444 = c.a * 4096 + c.b * 256 + c.g * 16 + c.r := by
  have h1 := c.a_lt; have h2 := c.b_lt; have h3 := c.g_lt; have h4 := c.r_lt
  simp only [Color.as_abgr4444, Color.into_bits, Color.from_values_bits]
  omega

theorem decode_abgr4444_linear (x1 x2 x3 x4 : Nat) (h1 : x1 < 16) (h2 : x2 < 16)
    (h3 : x3 < 16) (h4 : x4 < 16) :
    decode_abgr4444 (x1 * 4096 + x2 * 256 + x3 * 16 + x4) = (x4, x3, x2, x1) := by
  simp only [decode_abgr4444, Prod.mk.injEq]
  refine ⟨?_, ?_, ?_, ?_⟩ <;> omega

/-- C8: decoding `as_rgba4444` by the RGBA channel mapping and decoding
`as_abgr4444` by the inverse ABGR channel mapping both recover exactly the
four channel values of the color: the two serializations are pure
bit-permutations of the same channels. -/
theorem color_serialization_roundtrip :
    ∀ c : Color,
      decode_rgba4444 (Color.as_rgba4444 c) = (c.r, c.g, c.b, c.a) ∧
        decode_abgr4444 (Color.as_abgr4444 c) = (c.r, c.g, c.b, c.a) := by
  intro c
  constructor
  · simp only [decode_rgba4444, Color.as_rgba4444, Color.into_bits, Color.r,
      Color.g, Color.b, Color.a, Prod.mk.injEq]
    refine ⟨?_, ?_, ?_, ?_⟩ <;> omega
  · rw [Color.as_abgr4444_eq,
      decode_abgr4444_linear c.a c.b c.g c.r c.a_lt c.b_lt c.g_lt c.r_lt]

/-- C1: `FrameBuffer::draw_rect` computes `rect.intersect(scisoring_area)`
but discards the returned rectangle, so clipping never takes effect.  With
scissor stack `[Rect{0,0,1,1}]` and `rect = Rect{2,2,1,1}` the intersection
is empty — the claim requires zero pixel writes — yet the code writes the
pixel `(2, 2)` and changes the buffer at flat index `2*stride + 2`. -/
theorem draw_rect_discards_scissor_intersection :
    FrameBuffer.draw_rect_writes [⟨0, 0, 1, 1⟩] ⟨2, 2, 1, 1⟩ = [(2, 2)] ∧
      (Rect.intersect ⟨2, 2, 1, 1⟩ ⟨0, 0, 1, 1⟩).is_empty = true ∧
      FrameBuffer.draw_rect_buffer [⟨0, 0, 1, 1⟩] 4 (fun _ => Color.BACKGROUND)
          ⟨2, 2, 1, 1⟩ Color.HIGHLIGHT (2 * 4 + 2) ≠ Color.BACKGROUND := by
  decide

/-- C5 counterexample: the stored opacity is not always clamped into
`[0, 1]`.  First, `Renderer::new` stores its `opacity` argument directly,
without clamping — constructing with opacity `2.0` stores `2.0`.  Second,
`set_opacity` called with NaN stores NaN, because `f32::clamp` propagates
a NaN self — so even the clamping setter does not establish the interval
invariant for arbitrary `f32` arguments. -/
theorem renderer_new_stores_unclamped_opacity :
    ((RendererState.new (some 2)).opacity = some 2 ∧
        ¬ opacity_in_unit_interval (RendererState.new (some 2)).opacity) ∧
      (((RendererState.new (some 0)).set_opacity none).opacity = none ∧
        ¬ opacity_in_unit_interval
            ((RendererState.new (some 0)).set_opacity none).opacity) := by
  refine ⟨⟨rfl, fun h => ?_⟩, rfl, fun h => h⟩
  have h2 : (2 : ℚ) ≤ 1 := h.2
  norm_num at h2

theorem set_opacity_some_mem (s : RendererState) (q : ℚ) :
    opacity_in_unit_interval (s.set_opacity (some q)).opacity := by
  show 0 ≤ max 0 (min q 1) ∧ max 0 (min q 1) ≤ 1
  exact ⟨le_max_left _ _, max_le (by norm_num) (min_le_right _ _)⟩

theorem foldl_set_opacity_mem (vs : List F32) :
    ∀ s : RendererState, (∀ w ∈ vs, w ≠ none) →
      opacity_in_unit_interval s.opacity →
      opacity_in_unit_interval ((vs.foldl RendererState.set_opacity s).opacity) := by
  induction vs with
  | nil => exact fun s _ hs => hs
  | cons w t ih =>
      intro s hvs hs
      obtain ⟨q, rfl⟩ :=
        Option.ne_none_iff_exists'.mp (hvs w (List.mem_cons_self w t))
      exact ih _ (fun u hu => hvs u (List.mem_cons_of_mem _ hu))
        (set_opacity_some_mem s q)

/-- C5 amended: `set_opacity` stores `clamp(v, 0f32, 1f32)`, which lies in
`[0, 1]` for every non-NaN argument, so after construction followed by at
least one `set_opacity` call whose argument — and every later argument —
is not NaN, the stored opacity lies in `[0, 1]`.  `Renderer::new` stores
its argument unclamped, and a NaN argument propagates through the clamp,
so neither construction alone nor NaN inputs establish the invariant. -/
theorem set_opacity_keeps_opacity_in_unit_interval :
    ∀ (init v : F32) (vs : List F32), v ≠ none → (∀ w ∈ vs, w ≠ none) →
      opacity_in_unit_interval
        ((vs.foldl RendererState.set_opacity
            ((RendererState.new init).set_opacity v)).opacity) := by
  intro init v vs hv hvs
  obtain ⟨q, rfl⟩ := Option.ne_none_iff_exists'.mp hv
  exact foldl_set_opacity_mem vs _ hvs (set_opacity_some_mem _ q)

/-- Witness for C5: construction with opacity `5.0`, then `set_opacity`
with `2.0` and `-3.0` — the stored opacity stays inside `[0, 1]`. -/
theorem set_opacity_keeps_opacity_in_unit_interval_witness :
    opacity_in_unit_interval
      ((([some (-3)] : List F32).foldl RendererState.set_opacity
          ((RendererState.new (some 5)).set_opacity (some 2))).opacity) :=
  set_opacity_keeps_opacity_in_unit_interval (some 5) (some 2) [some (-3)]
    (by simp) (by simp)

/-- C3: the `TrackBar::on_controller_input` state machine, for any platform
button masks and any held-key bitmask, with `value ≤ 100`: both or neither
direction held consumes with no change; left-only at the bound `100` or
right-only at the bound `0` returns not consumed with no change; otherwise
left-only increments and right-only decrements by one, invoking the
optional callback with the new value and consuming the input. -/
theorem trackbar_on_controller_input_spec :
    ∀ anyLeft anyRight held value : Nat, value ≤ 100 →
      (((held &&& anyLeft ≠ 0 ∧ held &&& anyRight ≠ 0) ∨
          (held &&& anyLeft = 0 ∧ held &&& anyRight = 0)) →
        TrackBar.on_controller_input anyLeft anyRight held value
          = ⟨value, true, none⟩) ∧
      ((held &&& anyLeft ≠ 0 ∧ held &&& anyRight = 0 ∧ value = 100) →
        TrackBar.on_controller_input anyLeft anyRight held value
          = ⟨value, false, none⟩) ∧
      ((held &&& anyLeft = 0 ∧ held &&& anyRight ≠ 0 ∧ value = 0) →
        TrackBar.on_controller_input anyLeft anyRight held value
          = ⟨value, false, none⟩) ∧
      ((held &&& anyLeft ≠ 0 ∧ held &&& anyRight = 0 ∧ value < 100) →
        TrackBar.on_controller_input anyLeft anyRight held value
          = ⟨value + 1, true, some (value + 1)⟩) ∧
      ((held &&& anyLeft = 0 ∧ held &&& anyRight ≠ 0 ∧ 0 < value) →
        TrackBar.on_controller_input anyLeft anyRight held value
          = ⟨value - 1, true, some (value - 1)⟩) := by
  intro anyLeft anyRight held value hv
  refine ⟨?_, ?_, ?_, ?_, ?_⟩
  · rintro (⟨hL, hR⟩ | ⟨hL, hR⟩) <;>
      simp [TrackBar.on_controller_input, hL, hR]
  · rintro ⟨hL, hR, h100⟩
    subst h100
    simp [TrackBar.on_controller_input, hL, hR]
  · rintro ⟨hL, hR, h0⟩
    subst h0
    simp [TrackBar.on_controller_input, hL, hR]
  · rintro ⟨hL, hR, hlt⟩
    simp [TrackBar.on_controller_input, hL, hR, hlt]
  · rintro ⟨hL, hR, hpos⟩
    simp [TrackBar.on_controller_input, hL, hR, hpos]

/-- Witness for C3: with masks `ANY_LEFT = 1`, `ANY_RIGHT = 2`, a left-only
hold at value `100` is not consumed and keeps the value, and a right-only
hold at value `50` moves to `49`, invokes the callback with `49`, and is
consumed. -/
theorem trackbar_on_controller_input_spec_witness :
    TrackBar.on_controller_input 1 2 1 100 = ⟨100, false, none⟩ ∧
      TrackBar.on_controller_input 1 2 2 50 = ⟨49, true, some 49⟩ := by
  constructor
  · exact (trackbar_on_controller_input_spec 1 2 1 100 (by norm_num)).2.1
      ⟨by decide, by decide, rfl⟩
  · exact (trackbar_on_controller_input_spec 1 2 2 50 (by norm_num)).2.2.2.2
      ⟨by decide, by decide, by norm_num⟩

/-- C6 counterexample: `draw_box` does not clamp — at `rect = Rect{0,0,1,1}`
with `line_width = 2` the offset is `1` and the source subtraction
`rect.left - line_offsets` underflows (modelled result `none`), where the
claimed saturating computation produces well-defined zero-clamped bands. -/
theorem draw_box_subtraction_underflows :
    FrameBuffer.draw_box_rects ⟨0, 0, 1, 1⟩ 2 = none ∧
      FrameBuffer.draw_box_rects_saturating ⟨0, 0, 1, 1⟩ 2
        = [⟨0, 0, 3, 2⟩, ⟨0, 0, 3, 2⟩, ⟨0, 0, 2, 3⟩, ⟨0, 0, 2, 3⟩] := by
  decide

/-- C6 amended: the subtractions in `draw_box` and `draw_highlight` are
raw, not saturating; under the precondition
`line_offset ≤ rect.left ∧ line_offset ≤ rect.top` no subtraction in
`draw_box` underflows (and the bands agree with the zero-clamped ones), and
under `4 ≤ left ∧ 4 ≤ top` the default `draw_highlight` band does not
underflow either. -/
theorem draw_box_no_underflow_under_margin :
    (∀ (rect : Rect) (line_width : Nat), rect.WF →
        max 1 (line_width / 2) ≤ rect.left → max 1 (line_width / 2) ≤ rect.top →
        FrameBuffer.draw_box_rects rect line_width
          = some (FrameBuffer.draw_box_rects_saturating rect line_width)) ∧
      (∀ bounds : Rect, 4 ≤ bounds.left → 4 ≤ bounds.top →
        Element.draw_highlight_rect bounds
          = some ⟨bounds.left - 4, bounds.top - 4, bounds.width + 8, 4⟩) := by
  constructor
  · intro rect lw hwf h1 h2
    obtain ⟨hwl, hwt, hww, hwh⟩ := hwf
    have hbo : max 1 (lw / 2) ≤ rect.bottom := by
      simp only [Rect.bottom, sadd, USIZE_MAX] at *; omega
    have hri : max 1 (lw / 2) ≤ rect.right := by
      simp only [Rect.right, sadd, USIZE_MAX] at *; omega
    simp [FrameBuffer.draw_box_rects, FrameBuffer.draw_box_rects_saturating,
      checked_sub, h1, h2, hbo, hri]
  · intro bounds h1 h2
    simp [Element.draw_highlight_rect, checked_sub, h1, h2]

/-- Witness for C6: the amended theorem at `rect = Rect{5,5,3,3}`,
`line_width = 2` and at highlight bounds `Rect{4,4,2,2}`. -/
theorem draw_box_no_underflow_under_margin_witness :
    FrameBuffer.draw_box_rects ⟨5, 5, 3, 3⟩ 2
        = some (FrameBuffer.draw_box_rects_saturating ⟨5, 5, 3, 3⟩ 2) ∧
      Element.draw_highlight_rect ⟨4, 4, 2, 2⟩ = some ⟨0, 0, 10, 4⟩ := by
  constructor
  · exact draw_box_no_underflow_under_margin.1 ⟨5, 5, 3, 3⟩ 2 (by decide)
      (by decide) (by decide)
  · exact draw_box_no_underflow_under_margin.2 ⟨4, 4, 2, 2⟩ (by norm_num)
      (by norm_num)

set_option maxHeartbeats 1600000 in
/-- C4: for valid rects, `A.intersect(B)` is pointwise contained in both
`A` and `B`, it is empty exactly when `A` and `B` share no point, and the
concrete scenario `Rect{0,0,10,10}.intersect(Rect{5,5,10,10})` equals
`Rect{5,5,5,5}`. -/
theorem rect_intersect_contained_and_empty_iff :
    (∀ A B : Rect, A.WF → B.WF →
      (((A.intersect B).is_empty = true) ↔ ¬ Rect.Overlaps A B) ∧
      (∀ x y, (A.intersect B).contains x y = true →
        A.contains x y = true ∧ B.contains x y = true)) ∧
    Rect.intersect ⟨0, 0, 10, 10⟩ ⟨5, 5, 10, 10⟩ = ⟨5, 5, 5, 5⟩ := by
  constructor
  · intro A B hwa hwb
    obtain ⟨hal, hat, haw, hah⟩ := hwa
    obtain ⟨hbl, hbt, hbw, hbh⟩ := hwb
    simp only [USIZE_MAX] at hal hat haw hah hbl hbt hbw hbh
    constructor
    · constructor
      · intro hemp
        rintro ⟨x, y, hax, hby⟩
        simp only [Rect.is_empty, Rect.intersect, Rect.contains, Rect.right,
          Rect.bottom, clampN, sadd, USIZE_MAX, Bool.and_eq_true,
          Bool.or_eq_true, decide_eq_true_eq] at hemp hax hby
        omega
      · intro hno
        by_contra hne
        apply hno
        refine ⟨clampN A.left B.left B.right, clampN A.top B.top B.bottom, ?_, ?_⟩ <;>
        · simp only [Rect.is_empty, Rect.intersect, Rect.contains, Rect.right,
            Rect.bottom, clampN, sadd, USIZE_MAX, Bool.and_eq_true,
            Bool.or_eq_true, decide_eq_true_eq] at hne ⊢
          omega
    · intro x y hxy
      simp only [Rect.intersect, Rect.contains, Rect.right, Rect.bottom,
        clampN, sadd, USIZE_MAX, Bool.and_eq_true, decide_eq_true_eq] at hxy ⊢
      omega
  · decide

/-- Witness for C4: the theorem applied at the scenario rects, whose
intersection `Rect{5,5,5,5}` is nonempty, so the two rects overlap. -/
theorem rect_intersect_contained_and_empty_iff_witness :
    ((Rect.intersect ⟨0, 0, 10, 10⟩ ⟨5, 5, 10, 10⟩).is_empty = true ↔
      ¬ Rect.Overlaps ⟨0, 0, 10, 10⟩ ⟨5, 5, 10, 10⟩) ∧
      ((Rect.intersect ⟨0, 0, 10, 10⟩ ⟨5, 5, 10, 10⟩).contains 6 6 = true →
        Rect.contains ⟨0, 0, 10, 10⟩ 6 6 = true ∧
          Rect.contains ⟨5, 5, 10, 10⟩ 6 6 = true) :=
  ⟨(rect_intersect_contained_and_empty_iff.1 ⟨0, 0, 10, 10⟩ ⟨5, 5, 10, 10⟩
      (by decide) (by decide)).1,
    (rect_intersect_contained_and_empty_iff.1 ⟨0, 0, 10, 10⟩ ⟨5, 5, 10, 10⟩
      (by decide) (by decide)).2 6 6⟩

end LibTesla
